import Mathlib

/-!
# Smart NOA Controller — verification of the spec against the code

Shallow embedding of `smart_noa_controller.py` (classes `Pharmacokinetics` and
`SmartNOAController`).  Python floats are modelled as rationals; the mutable
object state is passed explicitly.  Definitions mirror the source line by line;
theorems settle the frozen specification claims.
-/

namespace SmartNOA

/-- `Patient` dataclass: static patient data (source lines 16–34). -/
structure Patient where
  age : ℤ
  weight_kg : ℚ
  asa_class : ℤ
  egfr : ℚ
  allergies : List String
  comorbidities : List String
deriving DecidableEq, Repr

/-- The configuration values the controller reads through `ConfigLoader.get`.
Field names follow the YAML keys used in the source.  The two geriatric age
thresholds are kept separate because `check_contraindication` reads
`age_adjustments.geriatric.age_threshold` while `generate_starting_rates`
reads `drug_dosing.dexmedetomidine.geriatric_age_threshold`. -/
structure Config where
  hr_critical_low : ℚ
  map_critical_low : ℚ
  dex_central_volume_L_per_kg : ℚ
  dex_elimination_rate_constant_k10 : ℚ
  dex_effect_site_transfer_k1e : ℚ
  dex_ce_intervention_threshold : ℚ
  dex_standard_dose : ℚ
  dex_geriatric_age_threshold : ℤ
  dex_geriatric_dose : ℚ
  ketamine_standard_dose : ℚ
  lidocaine_standard_dose : ℚ
  keto_egfr_minimum : ℚ
  dex_cardiac_conditions : List String
  keto_allergy_triggers : List String
  age_adjustments_geriatric_age_threshold : ℤ
deriving DecidableEq, Repr

/-- State of the `Pharmacokinetics` object (source lines 118–148). -/
structure Pharmacokinetics where
  Vc : ℚ
  k10 : ℚ
  k1e : ℚ
  Cp : ℚ
  Ce : ℚ
deriving DecidableEq, Repr

/-- `Pharmacokinetics.__init__` (source lines 127–148): `Vc = central_vol * weight_kg`,
concentrations start at zero. -/
def Pharmacokinetics.init (weight_kg central_vol k10 k1e : ℚ) : Pharmacokinetics :=
  { Vc := central_vol * weight_kg, k10 := k10, k1e := k1e, Cp := 0, Ce := 0 }

/-- `Pharmacokinetics.update_concentration` (source lines 150–189).  Returns the
updated object state together with the returned `(Cp, Ce)` pair. -/
def Pharmacokinetics.update_concentration (pk : Pharmacokinetics)
    (infusion_rate_mcg_per_min : ℚ) (time_delta_min : ℚ) :
    Pharmacokinetics × (ℚ × ℚ) :=
  let infusion_mass_mcg := infusion_rate_mcg_per_min * time_delta_min
  let elim_mass_mcg := pk.Cp * pk.k10 * pk.Vc * time_delta_min
  let mass_change := infusion_mass_mcg - elim_mass_mcg
  let new_mass := pk.Cp * pk.Vc + mass_change
  let Cp1 : ℚ := if new_mass < 0 then 0 else new_mass / pk.Vc
  let dCe_dt := pk.k1e * (Cp1 - pk.Ce)
  let Ce1 := pk.Ce + dCe_dt * time_delta_min
  let Ce2 : ℚ := if Ce1 < 0 then 0 else Ce1
  ({ pk with Cp := Cp1, Ce := Ce2 }, (Cp1, Ce2))

/-- Reachable estimator states: the freshly constructed object, and any state
obtained from a reachable one by a call to `update_concentration` with
arbitrary rate and time-step arguments. -/
inductive Reachable (pk0 : Pharmacokinetics) : Pharmacokinetics → Prop
  | init : Reachable pk0 pk0
  | step (pk : Pharmacokinetics) (rate dt : ℚ) :
      Reachable pk0 pk → Reachable pk0 (pk.update_concentration rate dt).1

/-- The constant parameters of the estimator are never rewritten by
`update_concentration`. -/
theorem Reachable.Vc_eq {pk0 pk : Pharmacokinetics} (h : Reachable pk0 pk) :
    pk.Vc = pk0.Vc := by
  induction h with
  | init => rfl
  | step pk rate dt _ ih => simpa [Pharmacokinetics.update_concentration] using ih

/-- A value in the dictionary returned by `generate_starting_rates`: either a
numeric infusion rate (a Python float) or an availability status string. -/
inductive RateValue
  | num (r : ℚ)
  | status (s : String)
deriving DecidableEq, Repr

/-- The `isinstance(v, float)` filter applied to the rate dictionary (source
lines 331 and 400–401): keep exactly the numeric entries. -/
def numericEntries (xs : List (String × RateValue)) : List (String × ℚ) :=
  xs.filterMap (fun q => match q.2 with
    | RateValue.num r => some (q.1, r)
    | RateValue.status _ => none)

/-- `dict.get(k, 0.0)` on an infusion dictionary (source line 346).  The
dictionary is modelled as an association list with unique keys. -/
def getRate : List (String × ℚ) → String → ℚ
  | [], _ => 0
  | q :: xs, k => if q.1 = k then q.2 else getRate xs k

/-- Python `dict[k] = v`: overwrite the entry in place if the key is present,
otherwise append it (insertion order preserved). -/
def setRate : List (String × ℚ) → String → ℚ → List (String × ℚ)
  | [], k, v => [(k, v)]
  | q :: xs, k, v => if q.1 = k then (k, v) :: xs else q :: setRate xs k v

/-- `SmartNOAController._calculate_initial_lockouts` (source lines 245–273):
renal check, then cardiac check, then allergy check, each appending to `locks`
(the Python list may hence hold `Ketorolac` twice). -/
def calculate_initial_lockouts (cfg : Config) (p : Patient) : List String :=
  (if p.egfr < cfg.keto_egfr_minimum then ["Ketorolac"] else [])
    ++ (if cfg.dex_cardiac_conditions.any (fun x => x ∈ p.comorbidities) then
          ["Dexmedetomidine"] else [])
    ++ (if cfg.keto_allergy_triggers.any (fun a => a ∈ p.allergies) then
          ["Ketorolac"] else [])

/-- The hard-lock rationale lookup with its generic fallback
(source lines 286–289). -/
def hardLockReason (drug : String) : String :=
  if drug = "Dexmedetomidine" then
    "3rd-degree heart block or severe bradycardia risk (ASA/ESRA Guideline)"
  else if drug = "Ketorolac" then
    "Severe renal impairment (eGFR < 30) or known allergy"
  else
    "Patient-specific contraindication"

/-- `SmartNOAController.check_contraindication` (source lines 275–297). -/
def check_contraindication (cfg : Config) (p : Patient) (lockouts : List String)
    (drug : String) : Bool × String :=
  if drug ∈ lockouts then
    (false, "HARD LOCK: " ++ hardLockReason drug)
  else if drug = "Dexmedetomidine" ∧ p.age > cfg.age_adjustments_geriatric_age_threshold then
    (true, "SOFT WARNING: Geriatric patient (>"
      ++ toString cfg.age_adjustments_geriatric_age_threshold
      ++ "yo). Suggest 50% max dose reduction.")
  else
    (true, "Safe within protocol limits")

/-- The dictionary built by `SmartNOAController.generate_starting_rates`
(source lines 299–332), in Python dict insertion order, with the
`Ketorolac Adjunct` status string appended last. -/
def generate_rates_dict (cfg : Config) (p : Patient) (lockouts : List String) :
    List (String × RateValue) :=
  let dexRate : ℚ :=
    if "Dexmedetomidine" ∈ lockouts then 0
    else if p.age > cfg.dex_geriatric_age_threshold then cfg.dex_geriatric_dose
    else cfg.dex_standard_dose
  let ketorolacStatus : String :=
    if "Ketorolac" ∈ lockouts then "LOCKED OUT (CI)" else "Available (30mg IV)"
  [("Lidocaine", RateValue.num cfg.lidocaine_standard_dose),
   ("Ketamine", RateValue.num cfg.ketamine_standard_dose),
   ("Dexmedetomidine", RateValue.num dexRate),
   ("Ketorolac Adjunct", RateValue.status ketorolacStatus)]

/-- `SupervisoryStatus` (source line 221 and the control loop). -/
inductive Status
  | INITIALIZING
  | GREEN
  | RED
deriving DecidableEq, Repr

/-- The mutable controller state touched by the tick loop: the infusion
dictionary, the supervisory status, and the Dexmedetomidine PK object. -/
structure ControllerState where
  infusions : List (String × ℚ)
  status : Status
  dex_pk : Pharmacokinetics
deriving DecidableEq, Repr

/-- `generate_starting_rates` as a state transformer: it rebuilds the rate
dictionary, stores its numeric entries in `self.infusions` (source line 331),
and returns the full dictionary. -/
def generate_starting_rates (cfg : Config) (p : Patient) (lockouts : List String)
    (st : ControllerState) : ControllerState × List (String × RateValue) :=
  let rates := generate_rates_dict cfg p lockouts
  ({ st with infusions := numericEntries rates }, rates)

/-- `SmartNOAController._rate_to_mcg_per_min` (source lines 336–349):
`(rate_mcg_per_hour * weight_kg) / 60`. -/
def rate_to_mcg_per_min (infusions : List (String × ℚ)) (weight_kg : ℚ)
    (drug : String) : ℚ :=
  getRate infusions drug * weight_kg / 60

/-- The PK object after the per-tick `update_concentration` call
(source lines 376–377): the Dexmedetomidine rate converted to mcg/min, with
`Δt = 1/60` minutes. -/
def advancedPK (p : Patient) (st : ControllerState) : Pharmacokinetics :=
  (st.dex_pk.update_concentration
    (rate_to_mcg_per_min st.infusions p.weight_kg "Dexmedetomidine") (1/60)).1

/-- The drugs zeroed by Interlock B (source line 391). -/
def hypotension_affected_drugs : List String := ["Dexmedetomidine", "Lidocaine"]

/-- One iteration of the `monitor_and_control` loop body (source lines
370–404), with the simulated vitals abstracted into inputs `hr` and `map_val`. -/
def tick (cfg : Config) (p : Patient) (lockouts : List String)
    (st : ControllerState) (hr map_val : ℚ) : ControllerState :=
  let pk1 := advancedPK p st
  let dex_ce := pk1.Ce
  if hr < cfg.hr_critical_low ∧ dex_ce > cfg.dex_ce_intervention_threshold then
    { infusions := setRate st.infusions "Dexmedetomidine" 0
      status := Status.RED
      dex_pk := pk1 }
  else if map_val < cfg.map_critical_low then
    { infusions := hypotension_affected_drugs.foldl (fun acc d => setRate acc d 0) st.infusions
      status := Status.RED
      dex_pk := pk1 }
  else
    { infusions :=
        if st.status ≠ Status.GREEN then
          numericEntries (generate_rates_dict cfg p lockouts)
        else st.infusions
      status := Status.GREEN
      dex_pk := pk1 }

/-- Condition of Interlock A (source line 384): severe bradycardia together
with a high post-update effect-site concentration. -/
def interlockA_cond (cfg : Config) (p : Patient) (st : ControllerState) (hr : ℚ) : Prop :=
  hr < cfg.hr_critical_low ∧ (advancedPK p st).Ce > cfg.dex_ce_intervention_threshold

/-- Condition under which Interlock B executes (source line 390): Interlock A
did not fire and the mean arterial pressure is critically low. -/
def interlockB_cond (cfg : Config) (p : Patient) (st : ControllerState)
    (hr map_val : ℚ) : Prop :=
  ¬ interlockA_cond cfg p st hr ∧ map_val < cfg.map_critical_low

/-- Condition under which the stabilization branch executes (source line 397):
neither interlock fires. -/
def stabilize_cond (cfg : Config) (p : Patient) (st : ControllerState)
    (hr map_val : ℚ) : Prop :=
  ¬ interlockA_cond cfg p st hr ∧ ¬ (map_val < cfg.map_critical_low)

/-- The per-call update formulas exactly as the specification words them
(claim C5): the new plasma concentration is
`(Cp*Vc + rate*dt - Cp*k10*Vc*dt) / Vc`, clamped to 0 when the computed mass
is negative, and the new effect-site concentration is
`Ce + k1e*(Cp - Ce)*dt` (with the freshly updated plasma value), clamped
to 0. -/
def specClaimedUpdate (pk : Pharmacokinetics) (rate dt : ℚ) : ℚ × ℚ :=
  let mass := pk.Cp * pk.Vc + rate * dt - pk.Cp * pk.k10 * pk.Vc * dt
  let newCp : ℚ := if mass < 0 then 0 else mass / pk.Vc
  let newCe : ℚ :=
    if pk.Ce + pk.k1e * (newCp - pk.Ce) * dt < 0 then 0
    else pk.Ce + pk.k1e * (newCp - pk.Ce) * dt
  (newCp, newCe)

theorem getRate_setRate_self (xs : List (String × ℚ)) (k : String) (v : ℚ) :
    getRate (setRate xs k v) k = v := by
  induction xs with
  | nil => simp [setRate, getRate]
  | cons x xs ih =>
    by_cases hx : x.1 = k
    · simp [setRate, getRate, hx]
    · simp [setRate, getRate, hx, ih]

theorem getRate_setRate_of_ne (xs : List (String × ℚ)) {k k' : String}
    (h : k' ≠ k) (v : ℚ) :
    getRate (setRate xs k' v) k = getRate xs k := by
  induction xs with
  | nil => simp [setRate, getRate, h]
  | cons x xs ih =>
    by_cases hx : x.1 = k'
    · simp [setRate, getRate, hx, h]
    · by_cases hk : x.1 = k
      · simp [setRate, getRate, hx, hk, Ne.symm h]
      · simp [setRate, getRate, hx, hk, ih]

/-- Membership in the computed lockout list is restricted to the two drugs the
source ever appends. -/
theorem mem_calculate_initial_lockouts {cfg : Config} {p : Patient} {drug : String}
    (h : drug ∈ calculate_initial_lockouts cfg p) :
    drug = "Ketorolac" ∨ drug = "Dexmedetomidine" := by
  unfold calculate_initial_lockouts at h
  rcases List.mem_append.mp h with h12 | h3
  · rcases List.mem_append.mp h12 with h1 | h2
    · revert h1; split <;> simp_all
    · revert h2; split <;> simp_all
  · revert h3; split <;> simp_all

/-- A clamped quantity is non-negative. -/
theorem clamp_nonneg (a : ℚ) : 0 ≤ if a < 0 then (0:ℚ) else a := by
  split
  · exact le_refl 0
  · next h => exact not_lt.mp h

/-- Claim C5: every call `update_concentration rate dt` produces the new plasma
concentration `(Cp*Vc + rate*dt - Cp*k10*Vc*dt)/Vc` clamped to 0 when the
computed mass is negative, and the new effect-site concentration
`Ce + k1e*(Cp - Ce)*dt` (with the updated plasma value) clamped to 0; the
updated pair is both returned and retained as the object state for the next
call, with the rate constants untouched. -/
theorem update_concentration_matches_spec_formula (pk : Pharmacokinetics) (rate dt : ℚ) :
    (pk.update_concentration rate dt).2 = specClaimedUpdate pk rate dt ∧
    (pk.update_concentration rate dt).1 =
      { pk with Cp := (specClaimedUpdate pk rate dt).1,
                Ce := (specClaimedUpdate pk rate dt).2 } := by
  have hm : pk.Cp * pk.Vc + (rate * dt - pk.Cp * pk.k10 * pk.Vc * dt)
      = pk.Cp * pk.Vc + rate * dt - pk.Cp * pk.k10 * pk.Vc * dt := by ring
  constructor
  · simp only [Pharmacokinetics.update_concentration, specClaimedUpdate, hm]
  · simp only [Pharmacokinetics.update_concentration, specClaimedUpdate, hm]

/-- Claim C6: for every estimator state reachable from construction by any
finite sequence of `update_concentration` calls with arbitrary rational rate
and time-step arguments, both concentrations are non-negative (the central
compartment volume, fixed at construction, is positive for any physically
meaningful weight and per-kg volume). -/
theorem reachable_concentrations_nonneg (weight_kg central_vol k10 k1e : ℚ)
    (hV : 0 < central_vol * weight_kg) (pk : Pharmacokinetics)
    (h : Reachable (Pharmacokinetics.init weight_kg central_vol k10 k1e) pk) :
    0 ≤ pk.Cp ∧ 0 ≤ pk.Ce := by
  induction h with
  | init => exact ⟨le_refl 0, le_refl 0⟩
  | step pk rate dt hreach _ =>
    have hVc : 0 < pk.Vc := by
      rw [hreach.Vc_eq]; exact hV
    constructor
    · simp only [Pharmacokinetics.update_concentration]
      by_cases hmass :
          pk.Cp * pk.Vc + (rate * dt - pk.Cp * pk.k10 * pk.Vc * dt) < 0
      · rw [if_pos hmass]
      · rw [if_neg hmass]
        exact div_nonneg (not_lt.mp hmass) hVc.le
    · simp only [Pharmacokinetics.update_concentration]
      exact clamp_nonneg _

/-- Claim C6 witness: a concrete construction and one concrete advance, at
which the invariant is certified through the theorem. -/
theorem reachable_concentrations_nonneg_witness :
    (0:ℚ) < (4/5) * 70 ∧
    (0 ≤ (((Pharmacokinetics.init 70 (4/5) (1/25) (1/10)).update_concentration 35 1).1).Cp ∧
     0 ≤ (((Pharmacokinetics.init 70 (4/5) (1/25) (1/10)).update_concentration 35 1).1).Ce) :=
  ⟨by norm_num,
   reachable_concentrations_nonneg 70 (4/5) (1/25) (1/10) (by norm_num) _
     (Reachable.step _ 35 1 Reachable.init)⟩

/-- Claim C10: the protocol generator is idempotent — calling
`generate_starting_rates` a second time, from the state the first call left
behind, returns the same rate dictionary and leaves the same state. -/
theorem generate_starting_rates_idempotent (cfg : Config) (p : Patient)
    (lockouts : List String) (st : ControllerState) :
    (generate_starting_rates cfg p lockouts
        (generate_starting_rates cfg p lockouts st).1).2 =
      (generate_starting_rates cfg p lockouts st).2 ∧
    (generate_starting_rates cfg p lockouts
        (generate_starting_rates cfg p lockouts st).1).1 =
      (generate_starting_rates cfg p lockouts st).1 :=
  ⟨rfl, rfl⟩

/-- Claim C4: on every tick — whatever the supervisory status, including RED —
the Dexmedetomidine estimator is advanced exactly once, with the current rate
converted from mcg/kg/h to mcg/min via the patient weight (`rate * weight / 60`)
and a 1-second (`1/60` minute) time step; the interlock branches then read the
advanced state (`advancedPK`). -/
theorem tick_advances_pk_every_tick (cfg : Config) (p : Patient)
    (lockouts : List String) (st : ControllerState) (hr map_val : ℚ) :
    (tick cfg p lockouts st hr map_val).dex_pk = advancedPK p st ∧
    advancedPK p st =
      (st.dex_pk.update_concentration
        (getRate st.infusions "Dexmedetomidine" * p.weight_kg / 60) (1/60)).1 := by
  constructor
  · simp only [tick]
    split_ifs <;> rfl
  · rfl

/-- Claim C1: on every tick, a heart rate below the configured critical-low
threshold together with a post-update Dexmedetomidine effect-site
concentration above the configured intervention threshold forces the
Dexmedetomidine rate to 0 and sets status RED; both conditions are required —
with a low heart rate but a concentration not above the threshold (and no
hypotension), Interlock A does not fire and the tick ends GREEN. -/
theorem interlockA_requires_both_conditions (cfg : Config) (p : Patient)
    (lockouts : List String) (st : ControllerState) (hr map_val : ℚ) :
    (hr < cfg.hr_critical_low →
      (advancedPK p st).Ce > cfg.dex_ce_intervention_threshold →
      getRate (tick cfg p lockouts st hr map_val).infusions "Dexmedetomidine" = 0 ∧
      (tick cfg p lockouts st hr map_val).status = Status.RED) ∧
    (hr < cfg.hr_critical_low →
      ¬ ((advancedPK p st).Ce > cfg.dex_ce_intervention_threshold) →
      ¬ (map_val < cfg.map_critical_low) →
      (tick cfg p lockouts st hr map_val).status = Status.GREEN) := by
  constructor
  · intro h1 h2
    simp only [tick]
    rw [if_pos ⟨h1, h2⟩]
    exact ⟨getRate_setRate_self _ _ _, rfl⟩
  · intro h1 h2 h3
    simp only [tick]
    rw [if_neg (fun hc => h2 hc.2), if_neg h3]

/-- Claim C2: each tick evaluates the three branches in strict precedence
order — the branch conditions are mutually exclusive and exhaustive, so
exactly one branch executes — and whenever Interlock B executes (Interlock A
did not fire and the mean arterial pressure is below the critical-low
threshold), every drug of the configured affected set is forced to 0 and the
status is set to RED, independent of the estimated concentration. -/
theorem interlockB_zeroes_affected_set (cfg : Config) (p : Patient)
    (lockouts : List String) (st : ControllerState) (hr map_val : ℚ) :
    (interlockA_cond cfg p st hr ∨ interlockB_cond cfg p st hr map_val ∨
      stabilize_cond cfg p st hr map_val) ∧
    ¬ (interlockA_cond cfg p st hr ∧ interlockB_cond cfg p st hr map_val) ∧
    ¬ (interlockA_cond cfg p st hr ∧ stabilize_cond cfg p st hr map_val) ∧
    ¬ (interlockB_cond cfg p st hr map_val ∧ stabilize_cond cfg p st hr map_val) ∧
    (interlockB_cond cfg p st hr map_val →
      (∀ drug ∈ hypotension_affected_drugs,
        getRate (tick cfg p lockouts st hr map_val).infusions drug = 0) ∧
      (tick cfg p lockouts st hr map_val).status = Status.RED) := by
  refine ⟨?_, ?_, ?_, ?_, ?_⟩
  · unfold interlockB_cond stabilize_cond; tauto
  · unfold interlockB_cond; tauto
  · unfold stabilize_cond; tauto
  · unfold interlockB_cond stabilize_cond; tauto
  · rintro ⟨hA, hB⟩
    have hA' : ¬ (hr < cfg.hr_critical_low ∧
        (advancedPK p st).Ce > cfg.dex_ce_intervention_threshold) := hA
    simp only [tick]
    rw [if_neg hA', if_pos hB]
    refine ⟨?_, rfl⟩
    intro drug hd
    simp only [hypotension_affected_drugs, List.mem_cons,
      List.not_mem_nil, or_false] at hd
    simp only [hypotension_affected_drugs, List.foldl]
    rcases hd with h | h
    · subst h
      rw [getRate_setRate_of_ne _ (by decide) _, getRate_setRate_self]
    · subst h
      rw [getRate_setRate_self]

/-- Claim C3: on a tick where neither interlock fires, the status is set to
GREEN, and when the status was not already GREEN at the start of the tick the
full infusion-rate vector is regenerated through the protocol generator
(`generate_starting_rates`) rather than restored from a snapshot. -/
theorem stabilization_sets_green_and_regenerates (cfg : Config) (p : Patient)
    (lockouts : List String) (st : ControllerState) (hr map_val : ℚ)
    (hA : ¬ interlockA_cond cfg p st hr)
    (hmap : ¬ (map_val < cfg.map_critical_low)) :
    (tick cfg p lockouts st hr map_val).status = Status.GREEN ∧
    (st.status ≠ Status.GREEN →
      (tick cfg p lockouts st hr map_val).infusions =
        numericEntries (generate_starting_rates cfg p lockouts st).2) := by
  have hA' : ¬ (hr < cfg.hr_critical_low ∧
      (advancedPK p st).Ce > cfg.dex_ce_intervention_threshold) := hA
  simp only [tick]
  rw [if_neg hA', if_neg hmap]
  refine ⟨rfl, ?_⟩
  intro hst
  rw [if_pos hst]
  rfl

/-- Claim C7: for every patient and configuration, with the lockout set the
code computes for them, any drug of the lockout set that appears in the
numeric rate vector produced by the protocol generator has rate 0 — the
lockout is not overridden by the geriatric age adjustment, for any age. -/
theorem locked_drug_has_zero_rate (cfg : Config) (p : Patient)
    (lockouts : List String) (hlk : lockouts = calculate_initial_lockouts cfg p)
    (drug : String) (r : ℚ) (hd : drug ∈ lockouts)
    (hmem : (drug, r) ∈ numericEntries (generate_rates_dict cfg p lockouts)) :
    r = 0 := by
  subst hlk
  rcases mem_calculate_initial_lockouts hd with hK | hD
  · subst hK
    simp [generate_rates_dict, numericEntries] at hmem
  · subst hD
    simp [generate_rates_dict, numericEntries, hd] at hmem
    exact hmem

/-- Claim C8: the numeric rate vector derived from the generator's output
contains exactly the three titratable drugs, each with a numeric rate; the
Ketorolac adjunct is carried as a non-empty availability status string and is
absent from the numeric vector. -/
theorem numeric_vector_excludes_status_entry (cfg : Config) (p : Patient)
    (lockouts : List String) :
    (numericEntries (generate_rates_dict cfg p lockouts)).map Prod.fst =
      ["Lidocaine", "Ketamine", "Dexmedetomidine"] ∧
    (∃ s, ("Ketorolac Adjunct", RateValue.status s) ∈
        generate_rates_dict cfg p lockouts ∧ s ≠ "") ∧
    "Ketorolac Adjunct" ∉
      (numericEntries (generate_rates_dict cfg p lockouts)).map Prod.fst := by
  refine ⟨rfl, ?_, ?_⟩
  · refine ⟨if "Ketorolac" ∈ lockouts then "LOCKED OUT (CI)"
      else "Available (30mg IV)", ?_, ?_⟩
    · simp [generate_rates_dict]
    · split <;> decide
  · rw [show (numericEntries (generate_rates_dict cfg p lockouts)).map Prod.fst =
      ["Lidocaine", "Ketamine", "Dexmedetomidine"] from rfl]
    decide

/-- Claim C9: the contraindication check refuses a drug exactly when it is in
the lockout set, in which case the message carries the drug's hard-lock
rationale (with a non-empty generic fallback); a non-locked Dexmedetomidine
request for a patient older than the configured soft-ceiling threshold is
allowed with a dose-reduction advisory; every other request is allowed with
the neutral in-protocol message. -/
theorem check_contraindication_cases (cfg : Config) (p : Patient)
    (lockouts : List String) (drug : String) :
    ((check_contraindication cfg p lockouts drug).1 = false ↔ drug ∈ lockouts) ∧
    (drug ∈ lockouts →
      (check_contraindication cfg p lockouts drug).2 =
        "HARD LOCK: " ++ hardLockReason drug ∧
      hardLockReason drug ≠ "") ∧
    (drug ∉ lockouts → drug = "Dexmedetomidine" →
      p.age > cfg.age_adjustments_geriatric_age_threshold →
      (check_contraindication cfg p lockouts drug).1 = true ∧
      (check_contraindication cfg p lockouts drug).2 =
        "SOFT WARNING: Geriatric patient (>"
          ++ toString cfg.age_adjustments_geriatric_age_threshold
          ++ "yo). Suggest 50% max dose reduction.") ∧
    (drug ∉ lockouts →
      ¬ (drug = "Dexmedetomidine" ∧
          p.age > cfg.age_adjustments_geriatric_age_threshold) →
      (check_contraindication cfg p lockouts drug).1 = true ∧
      (check_contraindication cfg p lockouts drug).2 =
        "Safe within protocol limits") := by
  refine ⟨?_, ?_, ?_, ?_⟩
  · constructor
    · intro hfalse
      by_contra hmem
      unfold check_contraindication at hfalse
      rw [if_neg hmem] at hfalse
      split at hfalse <;> simp_all
    · intro hmem
      unfold check_contraindication
      rw [if_pos hmem]
  · intro hmem
    refine ⟨?_, ?_⟩
    · unfold check_contraindication
      rw [if_pos hmem]
    · unfold hardLockReason
      split
      · decide
      · split <;> decide
  · intro hmem hdex hage
    unfold check_contraindication
    rw [if_neg hmem, if_pos ⟨hdex, hage⟩]
    exact ⟨rfl, rfl⟩
  · intro hmem hsoft
    unfold check_contraindication
    rw [if_neg hmem, if_neg hsoft]
    exact ⟨rfl, rfl⟩

/-- Example clinical parameter set mirroring the values exercised by the
repository's tests (`config.yaml`): heart-rate threshold 48, MAP threshold 60,
Dexmedetomidine standard dose 0.5 with geriatric dose 0.25 above age 65,
Ketorolac eGFR minimum 30, Ce intervention threshold 0.1. -/
def cfgDemo : Config :=
  { hr_critical_low := 48
    map_critical_low := 60
    dex_central_volume_L_per_kg := 4/5
    dex_elimination_rate_constant_k10 := 1/25
    dex_effect_site_transfer_k1e := 1/10
    dex_ce_intervention_threshold := 1/10
    dex_standard_dose := 1/2
    dex_geriatric_age_threshold := 65
    dex_geriatric_dose := 1/4
    ketamine_standard_dose := 3/10
    lidocaine_standard_dose := 1
    keto_egfr_minimum := 30
    dex_cardiac_conditions := ["Heart Block", "Sick Sinus Syndrome"]
    keto_allergy_triggers := ["NSAID", "Aspirin"]
    age_adjustments_geriatric_age_threshold := 65 }

/-- Healthy young adult of the demo (case 2 of the source). -/
def patientDemo : Patient :=
  { age := 30, weight_kg := 70, asa_class := 2, egfr := 95,
    allergies := [], comorbidities := [] }

/-- High-risk geriatric patient of the demo (case 1 of the source): heart
block and renal impairment. -/
def patientHB : Patient :=
  { age := 78, weight_kg := 72, asa_class := 3, egfr := 24,
    allergies := [], comorbidities := ["Heart Block"] }

/-- Freshly initialized controller state: zero infusions, INITIALIZING,
estimator at zero concentrations. -/
def stDemo0 : ControllerState :=
  { infusions := [("Dexmedetomidine", 0), ("Ketamine", 0), ("Lidocaine", 0)]
    status := Status.GREEN
    dex_pk := Pharmacokinetics.init 70 (4/5) (1/25) (1/10) }

/-- A controller state recovering from initialization, used as a
stabilization-tick input. -/
def stInitDemo : ControllerState :=
  { infusions := [("Dexmedetomidine", 0), ("Ketamine", 0), ("Lidocaine", 0)]
    status := Status.INITIALIZING
    dex_pk := Pharmacokinetics.init 70 (4/5) (1/25) (1/10) }

/-- A controller state with a large effect-site concentration on board. -/
def stCeDemo : ControllerState :=
  { infusions := []
    status := Status.GREEN
    dex_pk := { Vc := 56, k10 := 1/25, k1e := 1/10, Cp := 0, Ce := 10 } }

/-- Claim C1 witness: a concrete bradycardic tick (hr 40 < 48) with high
effect-site concentration stops Dexmedetomidine and turns the status RED. -/
theorem interlockA_requires_both_conditions_witness :
    ((40:ℚ) < cfgDemo.hr_critical_low ∧
     (advancedPK patientDemo stCeDemo).Ce > cfgDemo.dex_ce_intervention_threshold) ∧
    getRate (tick cfgDemo patientDemo [] stCeDemo 40 80).infusions "Dexmedetomidine" = 0 ∧
    (tick cfgDemo patientDemo [] stCeDemo 40 80).status = Status.RED := by
  have h1 : (40:ℚ) < cfgDemo.hr_critical_low := by norm_num [cfgDemo]
  have h2 : (advancedPK patientDemo stCeDemo).Ce >
      cfgDemo.dex_ce_intervention_threshold := by
    norm_num [advancedPK, rate_to_mcg_per_min, getRate,
      Pharmacokinetics.update_concentration, stCeDemo, patientDemo, cfgDemo]
  have h := (interlockA_requires_both_conditions cfgDemo patientDemo []
    stCeDemo 40 80).1 h1 h2
  exact ⟨⟨h1, h2⟩, h⟩

/-- Claim C2 witness: a concrete hypotensive tick (map 55 < 60, hr normal)
zeroes Lidocaine and turns the status RED. -/
theorem interlockB_zeroes_affected_set_witness :
    interlockB_cond cfgDemo patientDemo stDemo0 70 55 ∧
    getRate (tick cfgDemo patientDemo [] stDemo0 70 55).infusions "Lidocaine" = 0 ∧
    (tick cfgDemo patientDemo [] stDemo0 70 55).status = Status.RED := by
  have hB : interlockB_cond cfgDemo patientDemo stDemo0 70 55 :=
    ⟨fun hc => absurd hc.1 (by norm_num [cfgDemo]), by norm_num [cfgDemo]⟩
  have h := (interlockB_zeroes_affected_set cfgDemo patientDemo []
    stDemo0 70 55).2.2.2.2 hB
  exact ⟨hB, h.1 "Lidocaine" (by decide), h.2⟩

/-- Claim C3 witness: a concrete safe tick (hr 70, map 80) from a non-GREEN
state ends GREEN with the rate vector regenerated by the protocol
generator. -/
theorem stabilization_sets_green_and_regenerates_witness :
    (tick cfgDemo patientDemo [] stInitDemo 70 80).status = Status.GREEN ∧
    (tick cfgDemo patientDemo [] stInitDemo 70 80).infusions =
      numericEntries (generate_starting_rates cfgDemo patientDemo [] stInitDemo).2 := by
  have h := stabilization_sets_green_and_regenerates cfgDemo patientDemo []
    stInitDemo 70 80
    (fun hc => absurd hc.1 (by norm_num [cfgDemo])) (by norm_num [cfgDemo])
  exact ⟨h.1, h.2 (by decide)⟩

/-- Claim C7 witness: for the high-risk demo patient, Dexmedetomidine is in
the computed lockout set and carries rate 0 in the generated numeric
vector. -/
theorem locked_drug_has_zero_rate_witness :
    ("Dexmedetomidine" ∈ calculate_initial_lockouts cfgDemo patientHB ∧
     ("Dexmedetomidine", (0:ℚ)) ∈ numericEntries
        (generate_rates_dict cfgDemo patientHB
          (calculate_initial_lockouts cfgDemo patientHB))) ∧
    (0:ℚ) = 0 :=
  ⟨⟨by decide, by decide⟩,
   locked_drug_has_zero_rate cfgDemo patientHB _ rfl "Dexmedetomidine" 0
     (by decide) (by decide)⟩

/-- Claim C9 witness: for the high-risk demo patient, Ketorolac is locked out
and the check reports the configured hard-lock rationale, which is
non-empty. -/
theorem check_contraindication_cases_witness :
    ("Ketorolac" ∈ calculate_initial_lockouts cfgDemo patientHB) ∧
    (check_contraindication cfgDemo patientHB
        (calculate_initial_lockouts cfgDemo patientHB) "Ketorolac").2 =
      "HARD LOCK: " ++ hardLockReason "Ketorolac" ∧
    hardLockReason "Ketorolac" ≠ "" := by
  have hmem : "Ketorolac" ∈ calculate_initial_lockouts cfgDemo patientHB := by
    decide
  have h := (check_contraindication_cases cfgDemo patientHB
    (calculate_initial_lockouts cfgDemo patientHB) "Ketorolac").2.1 hmem
  exact ⟨hmem, h.1, h.2⟩

end SmartNOA
